import Mathlib

/-!
Verification of the marketing-swarm conversation orchestrator.

The repository ships the React frontend (LiveFeed.jsx, EnhancedConversation.jsx),
the system diagrams (SystemDiagram.jsx, the system-flow document) and the
operational documentation; the Python backend that implements the orchestrator
loop is not part of the source tree.  Definitions below are therefore of two
kinds: direct embeddings of the frontend code and of the keyword tables and
flow graphs recorded in the diagrams, and models of the missing backend
components reconstructed from the specification (each such definition carries
a doc comment starting with the words Modelled from the spec).
-/

namespace MarketingSwarm

/-- Infix search on character lists: true when pat occurs contiguously in l. -/
def listInfix : List Char → List Char → Bool
  | l@(_ :: t), pat => pat.isPrefixOf l || listInfix t pat
  | [], pat => pat.isEmpty

/-- Substring test on strings, via infix search on the character lists.
Used everywhere the orchestrator does shallow keyword matching. -/
def containsSub (text pat : String) : Bool :=
  listInfix text.toList pat.toList

/-- Modelled from the spec: the four ordered discussion phases of the
Phase State Machine (section 4.4), matching the four phase nodes of the
conversation flowchart in SystemDiagram.diagrams.conversation. -/
inductive Phase where
  | discovery
  | analysis
  | recommendation
  | synthesis
deriving DecidableEq, Repr

/-- Position of a phase in the forward order. -/
def Phase.idx : Phase → Nat
  | .discovery => 0
  | .analysis => 1
  | .recommendation => 2
  | .synthesis => 3

/-- Modelled from the spec: the successor of a phase in the forward order;
none for the last phase. -/
def nextPhase : Phase → Option Phase
  | .discovery => some .analysis
  | .analysis => some .recommendation
  | .recommendation => some .synthesis
  | .synthesis => none

/-- A persona: identity, domain tags and the four personality scalars
(assertiveness, contrarianism, creativity, patience), per the data model
and the Agent Traits diagram. Scalars are rationals in the unit interval. -/
structure Persona where
  id : String
  displayName : String
  domainTags : List String
  assertiveness : ℚ
  contrarianism : ℚ
  creativity : ℚ
  patience : ℚ

/-- A relationship edge between two personas: alliance counter, conflict
counter and a respect level, per the Relationship Types diagram
(Alliances, Conflicts, Respect Levels -10 to +10). -/
structure RelationshipEdge where
  allianceCount : Nat
  conflictCount : Nat
  respect : Int
deriving DecidableEq, Repr

/-- A fresh edge: all counters zero, per the lazily-created default. -/
def freshEdge : RelationshipEdge := ⟨0, 0, 0⟩

/-- Respect is clamped into the interval from -10 to 10 after every update. -/
def clampRespect (r : Int) : Int :=
  max (-10) (min 10 r)

/-- Agreement trigger phrases, embedded from the Triggers box of the
relationship diagram in SystemDiagram.jsx (diagrams.relationships) and the
system-flow document. -/
def agreementPhrases : List String :=
  ["building on", "exactly", "brilliant"]

/-- Disagreement trigger phrases, embedded from the Triggers box of the
relationship diagram in SystemDiagram.jsx (diagrams.relationships) and the
system-flow document. -/
def disagreementPhrases : List String :=
  ["disagree", "wrong", "stop"]

/-- Agreement markers as the specification words them (section 4.3). -/
def specAgreementMarkers : List String :=
  ["exactly", "building on", "agree"]

/-- Disagreement markers as the specification words them (section 4.3). -/
def specDisagreementMarkers : List String :=
  ["disagree", "that\x27s wrong", "stop"]

/-- True when the text contains one of the diagrams agreement phrases. -/
def detectAgreement (text : String) : Bool :=
  agreementPhrases.any (containsSub text)

/-- True when the text contains one of the diagrams disagreement phrases. -/
def detectDisagreement (text : String) : Bool :=
  disagreementPhrases.any (containsSub text)

/-- True when the text contains one of the markers as the spec words them. -/
def specDetectAgreement (text : String) : Bool :=
  specAgreementMarkers.any (containsSub text)

/-- True when the text contains one of the markers as the spec words them. -/
def specDetectDisagreement (text : String) : Bool :=
  specDisagreementMarkers.any (containsSub text)

/-- Modelled from the spec: an agreement hit increments the alliance counter
and raises respect by one, clamped (section 4.3). -/
def applyAgreement (e : RelationshipEdge) : RelationshipEdge :=
  { e with
    allianceCount := e.allianceCount + 1
    respect := clampRespect (e.respect + 1) }

/-- Modelled from the spec: a disagreement hit increments the conflict counter
and lowers respect by one, clamped (section 4.3). -/
def applyDisagreement (e : RelationshipEdge) : RelationshipEdge :=
  { e with
    conflictCount := e.conflictCount + 1
    respect := clampRespect (e.respect - 1) }

/-- Modelled from the spec: an interruption lowers respect by one on the
edge between interrupter and interrupted, clamped (section 4.3). -/
def applyInterruptionPenalty (e : RelationshipEdge) : RelationshipEdge :=
  { e with respect := clampRespect (e.respect - 1) }

/-- The three kinds of ledger update the spec names. -/
inductive LedgerOp where
  | agreement
  | disagreement
  | interruption
deriving DecidableEq, Repr

/-- Apply one ledger update to an edge. -/
def applyOp : LedgerOp → RelationshipEdge → RelationshipEdge
  | .agreement, e => applyAgreement e
  | .disagreement, e => applyDisagreement e
  | .interruption, e => applyInterruptionPenalty e

/-- Apply a sequence of ledger updates to an edge, oldest first. -/
def applyOps (ops : List LedgerOp) (e : RelationshipEdge) : RelationshipEdge :=
  ops.foldl (fun acc op => applyOp op acc) e

/-- Normalised key for the unordered pair of two persona ids. -/
def pairKey (a b : String) : String × String :=
  if a ≤ b then (a, b) else (b, a)

/-- Modelled from the spec: the relationship ledger, an edge for every
unordered pair of persona ids, lazily defaulted to zeros. -/
def Ledger : Type := String × String → RelationshipEdge

/-- The ledger at session creation: every edge fresh. -/
def emptyLedger : Ledger := fun _ => freshEdge

/-- Read the edge between two personas. -/
def getEdge (L : Ledger) (a b : String) : RelationshipEdge :=
  L (pairKey a b)

/-- Write the edge between two personas. -/
def setEdge (L : Ledger) (a b : String) (e : RelationshipEdge) : Ledger :=
  fun k => if k = pairKey a b then e else L k

/-- Modelled from the spec: per-edge effect of one utterance text
(section 4.3): an agreement phrase hit applies the agreement update and a
disagreement phrase hit applies the disagreement update, using the phrase
tables of the diagrams. -/
def updateEdgeForText (text : String) (e : RelationshipEdge) : RelationshipEdge :=
  let e1 := if detectAgreement text then applyAgreement e else e
  if detectDisagreement text then applyDisagreement e1 else e1

/-- An utterance of the transcript, per the data model: sequence number,
speaker, text, phase, thinking-time offset, the optionally interrupted
speaker, and the degraded flag set by the generation fallback path. -/
structure Utterance where
  sequenceNumber : Nat
  speakerId : String
  text : String
  phase : Phase
  timestampOffsetMs : ℚ
  interruptedSpeakerId : Option String
  degraded : Bool

/-- Modelled from the spec: the ledger mutation for one utterance
(section 4.3).  Every other persona whose display name occurs in the text
has its edge to the speaker updated by the phrase tables; an interruption
additionally costs one respect point on the interrupter-interrupted edge. -/
def applyUtterance (personas : List Persona) (u : Utterance) (L : Ledger) : Ledger :=
  let referenced := personas.filter
    (fun p => (p.id != u.speakerId) && containsSub u.text p.displayName)
  let L1 := referenced.foldl
    (fun acc p => setEdge acc u.speakerId p.id
      (updateEdgeForText u.text (getEdge acc u.speakerId p.id))) L
  match u.interruptedSpeakerId with
  | some j => setEdge L1 u.speakerId j
      (applyInterruptionPenalty (getEdge L1 u.speakerId j))
  | none => L1

/-- Modelled from the spec: the static scheduler and phase configuration
(sections 4.1, 4.4 and 6): thinking-time base, patience weight and jitter
range, the interrupt probability cap, and the per-phase utterance caps. -/
structure OrchestratorConfig where
  baseDelay : ℚ
  patienceWeight : ℚ
  jitterRange : ℚ
  interruptCap : ℚ
  maxUtterances : Phase → Nat

/-- Modelled from the spec: thinking time is the base delay plus patience
times the patience weight plus the drawn jitter (section 4.1, and the
Calculate Thinking Time node of the conversation flowchart). -/
def computeThinkingTime (cfg : OrchestratorConfig) (p : Persona) (jitter : ℚ) : ℚ :=
  cfg.baseDelay + p.patience * cfg.patienceWeight + jitter

/-- Modelled from the spec: the conflict weight grows with the existing
conflict count between candidate and current speaker (section 4.1). -/
def conflictWeight (L : Ledger) (a b : String) : ℚ :=
  (getEdge L a b).conflictCount

/-- Modelled from the spec: interrupt probability proportional to the
candidate assertiveness scaled by one plus the conflict weight, capped at
the configured maximum (section 4.1). -/
def interruptProbability (cfg : OrchestratorConfig) (cand cur : Persona)
    (L : Ledger) : ℚ :=
  min cfg.interruptCap (cand.assertiveness * (1 + conflictWeight L cand.id cur.id))

/-- Modelled from the spec: the interruption decision (section 4.1).  The
draw is the supplied uniform random value, so the function is deterministic
under a supplied seed; a candidate equal to the current speaker never
interrupts. -/
def shouldInterrupt (cfg : OrchestratorConfig) (cand cur : Persona)
    (L : Ledger) (draw : ℚ) : Bool :=
  if cand.id = cur.id then false
  else draw < interruptProbability cfg cand cur L

/-- Modelled from the spec: the per-session mutable state of the data model:
current phase, transcript, the set of personas heard this phase, the count of
utterances this phase, and the relationship ledger. -/
structure ConversationSession where
  sessionId : String
  topic : String
  currentPhase : Phase
  transcript : List Utterance
  spokenThisPhase : List String
  utterancesThisPhase : Nat
  relationships : Ledger

/-- Modelled from the spec: a session starts in the Discovery phase with an
empty transcript, nobody heard yet, and a fresh ledger (sections 3, 4.4). -/
def initSession (sid topic : String) : ConversationSession :=
  { sessionId := sid
    topic := topic
    currentPhase := .discovery
    transcript := []
    spokenThisPhase := []
    utterancesThisPhase := 0
    relationships := emptyLedger }

/-- Modelled from the spec: the phase-advance condition (section 4.4): every
persona heard this phase, or the per-phase utterance cap reached. -/
def shouldAdvance (cfg : OrchestratorConfig) (personaIds : List String)
    (s : ConversationSession) : Bool :=
  personaIds.all (fun p => p ∈ s.spokenThisPhase) ||
    cfg.maxUtterances s.currentPhase ≤ s.utterancesThisPhase

/-- Modelled from the spec: move to the next phase, resetting the heard set
and the per-phase utterance count; the last phase has no successor. -/
def advancePhase (s : ConversationSession) : ConversationSession :=
  match nextPhase s.currentPhase with
  | some ph =>
    { s with currentPhase := ph, spokenThisPhase := [], utterancesThisPhase := 0 }
  | none => s

/-- Modelled from the spec: after each utterance the phase machine advances
exactly when the non-terminal advance condition holds (section 4.4). -/
def maybeAdvance (cfg : OrchestratorConfig) (personaIds : List String)
    (s : ConversationSession) : ConversationSession :=
  if s.currentPhase ≠ .synthesis ∧ shouldAdvance cfg personaIds s then
    advancePhase s
  else s

/-- A generated utterance text with its degraded flag. -/
structure GeneratedText where
  text : String
  degraded : Bool
deriving DecidableEq, Repr

/-- Modelled from the spec: the external generator result filter (section 6):
an absent reply or an empty string is a generation failure. -/
def genOutcome (r : Option String) : Option String :=
  match r with
  | some t => if t = "" then none else some t
  | none => none

/-- Modelled from the spec: the persona-neutral fallback line substituted
after the retry also fails (section 4.5). -/
def fallbackLine : String :=
  "Let me gather my thoughts on that and come back to it."

/-- Modelled from the spec: the retry-then-fallback wrapper of the external
generator (section 4.5).  The generator is called with true for the full
context and false for the simplified retry context.  Returns the generated
text and the list of context flags of the attempts actually made. -/
def generateWithRetryTrace (gen : Bool → Option String) :
    GeneratedText × List Bool :=
  match genOutcome (gen true) with
  | some t => (⟨t, false⟩, [true])
  | none =>
    match genOutcome (gen false) with
    | some t => (⟨t, false⟩, [true, false])
    | none => (⟨fallbackLine, true⟩, [true, false])

/-- The generated text of the retry-then-fallback wrapper. -/
def generateWithRetry (gen : Bool → Option String) : GeneratedText :=
  (generateWithRetryTrace gen).1

/-- Modelled from the spec: the scheduler inputs of one turn of the
orchestration loop: the chosen speaker, the external generator, the drawn
jitter, the interrupted speaker when the turn is an interruption, and
whether web data was attached. -/
structure TurnInput where
  speaker : Persona
  gen : Bool → Option String
  jitter : ℚ
  interruptedId : Option String
  hasWebData : Bool

/-- Modelled from the spec: one body of the orchestration loop (section 4.5):
generate the text through the retry wrapper, construct the utterance, append
it, mark the speaker heard, apply the ledger update, and ask the phase
machine whether to advance.  Total: a generation failure never aborts. -/
def pipelineTurn (cfg : OrchestratorConfig) (personas : List Persona)
    (inp : TurnInput) (s : ConversationSession) : ConversationSession × Utterance :=
  let g := generateWithRetry inp.gen
  let u : Utterance :=
    { sequenceNumber := s.transcript.length
      speakerId := inp.speaker.id
      text := g.text
      phase := s.currentPhase
      timestampOffsetMs := computeThinkingTime cfg inp.speaker inp.jitter
      interruptedSpeakerId := inp.interruptedId
      degraded := g.degraded }
  let s1 : ConversationSession :=
    { s with
      transcript := s.transcript ++ [u]
      spokenThisPhase := inp.speaker.id :: s.spokenThisPhase
      utterancesThisPhase := s.utterancesThisPhase + 1
      relationships := applyUtterance personas u s.relationships }
  (maybeAdvance cfg (personas.map Persona.id) s1, u)

/-- Modelled from the spec: keyword heuristics marking an utterance as
recommendation-bearing (section 4.6). -/
def recommendationPhrases : List String :=
  ["we should", "recommend"]

/-- True when the text carries a recommendation phrase. -/
def isRecommendationBearing (t : String) : Bool :=
  recommendationPhrases.any (containsSub t)

/-- Modelled from the spec: an utterance that lowered relationship respect,
through a disagreement phrase or through being an interruption. -/
def conflictUtterance (u : Utterance) : Bool :=
  detectDisagreement u.text || u.interruptedSpeakerId.isSome

/-- The section-owner tag of a speaker: the head domain tag of the persona. -/
def ownerTag (personas : List Persona) (pid : String) : String :=
  match personas.find? (fun p => p.id == pid) with
  | some p => p.domainTags.headD "general"
  | none => "general"

/-- Modelled from the spec: the number of leading recommendation-bearing
lines quoted in the executive summary (the configured N of section 4.6). -/
def execSummaryCount : Nat := 3

/-- The terminal structured output of the data model: ordered lists built
from the transcript. -/
structure SynthesisDocument where
  executiveSummary : List String
  situationAnalysis : List String
  recommendations : List (String × String)
  risks : List String
  nextSteps : List String
deriving DecidableEq, Repr

/-- Modelled from the spec: the synthesis generator (section 4.6): partition
the transcript by phase, extract recommendation-bearing and conflict
utterances by the keyword heuristics, and assemble the deterministic ordered
document.  Reads only the transcript and the ledger-derived conflict marks of
the session. -/
def synthesize (personas : List Persona) (s : ConversationSession) :
    SynthesisDocument :=
  let recs := s.transcript.filter (fun u => isRecommendationBearing u.text)
  { executiveSummary := (recs.take execSummaryCount).map Utterance.text
    situationAnalysis :=
      (s.transcript.filter (fun u => decide (u.phase.idx ≤ 1))).map Utterance.text
    recommendations := recs.map (fun u => (ownerTag personas u.speakerId, u.text))
    risks := (s.transcript.filter conflictUtterance).map Utterance.text
    nextSteps :=
      (s.transcript.filter (fun u => decide (2 ≤ u.phase.idx))).map Utterance.text }

/-- The payload shape of one agent response event, embedded from the fields
the frontend reads in LiveFeed.jsx (message.agent, message.message,
message.timestamp, message.thinking_time, message.has_web_data) and the
backend emission sketched in the frontend debug plan. -/
structure AgentResponseEvent where
  agent : String
  message : String
  timestamp : Nat
  thinking_time : ℚ
  has_web_data : Bool

/-- The payload field names of one agent response event, as the frontend
reads them in LiveFeed.jsx. -/
def agentResponseEventFields : List String :=
  ["agent", "message", "timestamp", "thinking_time", "has_web_data"]

/-- The utterance-event field names as the specification words them
(section 6). -/
def specUtteranceEventFields : List String :=
  ["sessionId", "sequenceNumber", "speakerId", "text", "phase",
   "isInterruption", "interruptedId", "timestamp"]

/-- The two event kinds of the event sink: an agent response per utterance,
embedded from the agent response and conversation complete handlers of
EnhancedConversation.jsx, the latter carrying the briefing document. -/
inductive SwarmEvent where
  | response (e : AgentResponseEvent)
  | complete (doc : SynthesisDocument)

/-- True for an agent response event. -/
def SwarmEvent.isResponse : SwarmEvent → Bool
  | .response _ => true
  | .complete _ => false

/-- True for the terminal completion event. -/
def SwarmEvent.isComplete : SwarmEvent → Bool
  | .response _ => false
  | .complete _ => true

/-- The agent response event emitted for one utterance, with the payload
shape of the frontend handlers. -/
def mkAgentResponseEvent (inp : TurnInput) (u : Utterance) : AgentResponseEvent :=
  { agent := u.speakerId
    message := u.text
    timestamp := u.sequenceNumber
    thinking_time := u.timestampOffsetMs
    has_web_data := inp.hasWebData }

/-- Modelled from the spec: the orchestration loop over a list of turn
inputs, emitting one agent response event per appended utterance. -/
def runTurns (cfg : OrchestratorConfig) (personas : List Persona) :
    List TurnInput → ConversationSession → ConversationSession × List SwarmEvent
  | [], s => (s, [])
  | inp :: rest, s =>
    let r1 := pipelineTurn cfg personas inp s
    let r2 := runTurns cfg personas rest r1.1
    (r2.1, SwarmEvent.response (mkAgentResponseEvent inp r1.2) :: r2.2)

/-- Modelled from the spec: a whole conversation run: the turn loop followed
by the single terminal completion event carrying the synthesis document. -/
def runConversation (cfg : OrchestratorConfig) (personas : List Persona)
    (inputs : List TurnInput) (s0 : ConversationSession) :
    ConversationSession × List SwarmEvent :=
  let r := runTurns cfg personas inputs s0
  (r.1, r.2 ++ [SwarmEvent.complete (synthesize personas r.1)])

/-- The nodes of the conversation flowchart embedded from
SystemDiagram.diagrams.conversation in SystemDiagram.jsx (identical in the
system-flow document): user query start, initialisation, memory creation,
the four phase nodes, the dynamic response loop nodes, the phase decisions
and the terminal briefing generation. -/
inductive ConvNode where
  | userQuery
  | initConversation
  | createMemory
  | phaseDiscovery
  | sarahStarts
  | dynamicLoop
  | thinkTime
  | genResponse
  | checkReactions
  | reactiveResponse
  | primaryResponse
  | emitResponse
  | updateRels
  | nextAgent
  | checkInterrupt
  | interruptSpeaker
  | continueFlow
  | phaseCompleteQ
  | nextPhaseQ
  | phaseAnalysis
  | phaseRecommendation
  | phaseSynthesis
  | generateBriefing
deriving DecidableEq, Repr

/-- The directed edges of the conversation flowchart, transcribed one to one
from the mermaid arrows of SystemDiagram.diagrams.conversation. -/
def convEdges : List (ConvNode × ConvNode) :=
  [(.userQuery, .initConversation),
   (.initConversation, .createMemory),
   (.createMemory, .phaseDiscovery),
   (.phaseDiscovery, .sarahStarts),
   (.sarahStarts, .dynamicLoop),
   (.dynamicLoop, .thinkTime),
   (.thinkTime, .genResponse),
   (.genResponse, .checkReactions),
   (.checkReactions, .reactiveResponse),
   (.checkReactions, .primaryResponse),
   (.reactiveResponse, .emitResponse),
   (.primaryResponse, .emitResponse),
   (.emitResponse, .updateRels),
   (.updateRels, .nextAgent),
   (.nextAgent, .checkInterrupt),
   (.checkInterrupt, .interruptSpeaker),
   (.checkInterrupt, .continueFlow),
   (.interruptSpeaker, .dynamicLoop),
   (.continueFlow, .dynamicLoop),
   (.dynamicLoop, .phaseCompleteQ),
   (.phaseCompleteQ, .dynamicLoop),
   (.phaseCompleteQ, .nextPhaseQ),
   (.nextPhaseQ, .phaseAnalysis),
   (.nextPhaseQ, .phaseRecommendation),
   (.nextPhaseQ, .phaseSynthesis),
   (.nextPhaseQ, .generateBriefing),
   (.phaseAnalysis, .dynamicLoop),
   (.phaseRecommendation, .dynamicLoop),
   (.phaseSynthesis, .dynamicLoop)]

/-- Agent colour classes, embedded from getAgentColor in LiveFeed.jsx. -/
def agentColors : List (String × String) :=
  [("sarah", "border-purple-200 bg-purple-50"),
   ("marcus", "border-blue-200 bg-blue-50"),
   ("elena", "border-pink-200 bg-pink-50"),
   ("david", "border-green-200 bg-green-50"),
   ("priya", "border-orange-200 bg-orange-50"),
   ("alex", "border-indigo-200 bg-indigo-50")]

/-- The default colour class of getAgentColor in LiveFeed.jsx. -/
def defaultAgentColor : String := "border-gray-200 bg-gray-50"

/-- Property names every plain JavaScript object literal inherits from the
Object prototype.  An index expression with one of these keys on the LiveFeed
lookup literals returns the inherited member, which is truthy, so the
or-fallback of the source never fires for them. -/
def objectPrototypeProps : List String :=
  ["constructor", "__proto__", "toString", "toLocaleString", "valueOf",
   "hasOwnProperty", "isPrototypeOf", "propertyIsEnumerable",
   "__defineGetter__", "__defineSetter__", "__lookupGetter__",
   "__lookupSetter__"]

/-- Display name and team role of an agent, per getAgentInfo in
LiveFeed.jsx. -/
structure AgentInfo where
  name : String
  role : String
deriving DecidableEq, Repr

/-- What the colour index expression of getAgentColor can evaluate to: a
colour class string (own property or the or-default), or a member inherited
from the Object prototype. -/
inductive ColorResult where
  | color (s : String)
  | inheritedMember (key : String)
deriving DecidableEq, Repr

/-- What the info index expression of getAgentInfo can evaluate to: an info
object (own property or the or-fallback), or a member inherited from the
Object prototype. -/
inductive AgentInfoResult where
  | info (i : AgentInfo)
  | inheritedMember (key : String)
deriving DecidableEq, Repr

/-- Colour lookup embedded from getAgentColor in LiveFeed.jsx with
JavaScript object-index semantics: an own property of the colors literal
wins; failing that, a key inherited from the Object prototype yields the
truthy inherited member, so the or-default never fires for it; only an
access evaluating to undefined falls back to the default grey class. -/
def getAgentColor (agentId : String) : ColorResult :=
  match agentColors.lookup agentId with
  | some c => .color c
  | none =>
    if agentId ∈ objectPrototypeProps then .inheritedMember agentId
    else .color defaultAgentColor

/-- The agent directory, embedded from getAgentInfo in LiveFeed.jsx. -/
def agentDirectory : List (String × AgentInfo) :=
  [("sarah", ⟨"Sarah", "Brand Strategy Lead"⟩),
   ("marcus", ⟨"Marcus", "Digital Campaign Manager"⟩),
   ("elena", ⟨"Elena", "Content Marketing Specialist"⟩),
   ("david", ⟨"David", "Customer Experience Designer"⟩),
   ("priya", ⟨"Priya", "Marketing Analytics Manager"⟩),
   ("alex", ⟨"Alex", "Growth Marketing Lead"⟩)]

/-- The fallback agent info returned for an undefined lookup in
LiveFeed.jsx. -/
def unknownAgentInfo : AgentInfo := ⟨"Unknown", "Agent"⟩

/-- Info lookup embedded from getAgentInfo in LiveFeed.jsx with JavaScript
object-index semantics: an own property of the agents literal wins; failing
that, a key inherited from the Object prototype yields the truthy inherited
member, so the or-fallback never fires for it; only an access evaluating to
undefined falls back to the Unknown info. -/
def getAgentInfo (agentId : String) : AgentInfoResult :=
  match agentDirectory.lookup agentId with
  | some i => .info i
  | none =>
    if agentId ∈ objectPrototypeProps then .inheritedMember agentId
    else .info unknownAgentInfo

/-- The name property of an info lookup result, per JavaScript semantics: an
info object carries its own name string; the inherited constructor member is
the Object constructor function, whose name property is the string Object;
the inherited proto accessor yields the Object prototype object, which has no
name property (undefined); every other inherited member is a function whose
name property is its own key. -/
def jsNameProp : AgentInfoResult → Option String
  | .info i => some i.name
  | .inheritedMember "constructor" => some "Object"
  | .inheritedMember "__proto__" => none
  | .inheritedMember k => some k

/-- The role property of an info lookup result: defined on an info object,
undefined on every member inherited from the Object prototype. -/
def jsRoleProp : AgentInfoResult → Option String
  | .info i => some i.role
  | .inheritedMember _ => none

/-- The six agent ids the LiveFeed colour and info tables know. -/
def knownAgentIds : List String :=
  ["sarah", "marcus", "elena", "david", "priya", "alex"]

/-- What LiveFeed.jsx renders for one message: the header name and role from
the info lookup, the colour class from the colour lookup, and the message
body; a role of undefined renders as empty, so it stays optional here. -/
structure RenderedMessage where
  headerName : String
  headerRole : Option String
  colorClass : ColorResult
  body : String
deriving DecidableEq, Repr

/-- The rendering of one agent response event, embedded from the message map
of LiveFeed.jsx with JavaScript semantics.  The avatar initial evaluates
agentInfo.name.charAt(0), so a name property of undefined raises a TypeError
and aborts the render: that case is none. -/
def renderFeedMessage (e : AgentResponseEvent) : Option RenderedMessage :=
  match jsNameProp (getAgentInfo e.agent) with
  | none => none
  | some n =>
    some { headerName := n
           headerRole := jsRoleProp (getAgentInfo e.agent)
           colorClass := getAgentColor e.agent
           body := e.message }

/-- A small concrete configuration used by the witnesses: zero base delay and
patience weight three, the constants of the Calculate Thinking Time node of
the conversation flowchart, with a cap of four utterances per phase. -/
def cfgW : OrchestratorConfig :=
  { baseDelay := 0
    patienceWeight := 3
    jitterRange := 1
    interruptCap := 3 / 5
    maxUtterances := fun _ => 4 }

/-- A low-patience persona used by the witnesses. -/
def personaLow : Persona :=
  ⟨"marcus", "Marcus", ["digital"], 9 / 10, 4 / 5, 1 / 2, 1 / 4⟩

/-- A high-patience persona used by the witnesses. -/
def personaHigh : Persona :=
  ⟨"sarah", "Sarah", ["brand"], 4 / 5, 2 / 5, 3 / 5, 9 / 10⟩

/-- A turn input whose generator always fails, used by the witnesses. -/
def inpW : TurnInput :=
  ⟨personaLow, fun _ => none, 0, none, false⟩

/-- An utterance of the impatient persona that builds on the patient one by
name, used by the witnesses. -/
def uW : Utterance :=
  { sequenceNumber := 0
    speakerId := "marcus"
    text := "I am building on Sarah"
    phase := .discovery
    timestampOffsetMs := 0
    interruptedSpeakerId := none
    degraded := false }

/-- A session mid-Discovery in which both personas have been heard, used by
the witnesses. -/
def sessionW : ConversationSession :=
  { sessionId := "w"
    topic := "launch"
    currentPhase := .discovery
    transcript := []
    spokenThisPhase := ["sarah", "marcus"]
    utterancesThisPhase := 2
    relationships := emptyLedger }

/-- A second session used by the synthesis witness: every session-identity
field differs from initSession while transcript and ledger agree. -/
def sessionW2 : ConversationSession :=
  { sessionId := "other"
    topic := "different topic"
    currentPhase := .synthesis
    transcript := []
    spokenThisPhase := ["alex"]
    utterancesThisPhase := 7
    relationships := emptyLedger }

section Theorems

/-- Respect stays in the clamp interval after one clamp. -/
lemma clampRespect_bounds (r : Int) :
    -10 ≤ clampRespect r ∧ clampRespect r ≤ 10 := by
  unfold clampRespect
  constructor
  · exact le_max_left _ _
  · exact max_le (by norm_num) (min_le_left _ _)

/-- Every single ledger update leaves respect clamped. -/
lemma applyOp_respect_bounds (op : LedgerOp) (e : RelationshipEdge) :
    -10 ≤ (applyOp op e).respect ∧ (applyOp op e).respect ≤ 10 := by
  cases op <;>
    simp only [applyOp, applyAgreement, applyDisagreement,
      applyInterruptionPenalty] <;>
    exact clampRespect_bounds _

/-- C3: for every relationship edge and every sequence of ledger updates
(agreement increments, disagreement decrements, interruption penalties),
the respect field stays inside the interval from -10 to 10: every single
update clamps it there, and any update sequence applied to a fresh edge
keeps it there. -/
theorem c3_respect_always_clamped :
    (∀ (op : LedgerOp) (e : RelationshipEdge),
      -10 ≤ (applyOp op e).respect ∧ (applyOp op e).respect ≤ 10) ∧
    ∀ ops : List LedgerOp,
      -10 ≤ (applyOps ops freshEdge).respect ∧
        (applyOps ops freshEdge).respect ≤ 10 := by
  refine ⟨applyOp_respect_bounds, ?_⟩
  intro ops
  cases ops with
  | nil => simp [applyOps, freshEdge]
  | cons op rest =>
    suffices h : ∀ (l : List LedgerOp) (e : RelationshipEdge),
        -10 ≤ e.respect ∧ e.respect ≤ 10 →
        -10 ≤ (applyOps l e).respect ∧ (applyOps l e).respect ≤ 10 by
      have h0 := applyOp_respect_bounds op freshEdge
      simpa [applyOps] using h rest (applyOp op freshEdge) h0
    intro l
    induction l with
    | nil => intro e he; simpa [applyOps] using he
    | cons o t ih =>
      intro e _
      simpa [applyOps] using ih (applyOp o e) (applyOp_respect_bounds o e)

/-- C4: a persona never interrupts itself: for every configuration, ledger
state and random draw, shouldInterrupt with an identical candidate and
current speaker returns false. -/
theorem c4_no_self_interruption (cfg : OrchestratorConfig) (p : Persona)
    (L : Ledger) (draw : ℚ) : shouldInterrupt cfg p p L draw = false := by
  simp [shouldInterrupt]

/-- C5: thinking time is the base delay plus patience times the patience
weight plus the drawn jitter, and with the jitter held fixed and a positive
patience weight it grows strictly with patience, so the lower-patience
persona always gets the shorter delay. -/
theorem c5_thinking_time_monotone (cfg : OrchestratorConfig) (p q : Persona)
    (jitter : ℚ) (hw : 0 < cfg.patienceWeight)
    (hpq : p.patience < q.patience) :
    computeThinkingTime cfg p jitter
        = cfg.baseDelay + p.patience * cfg.patienceWeight + jitter ∧
      computeThinkingTime cfg p jitter < computeThinkingTime cfg q jitter := by
  refine ⟨rfl, ?_⟩
  unfold computeThinkingTime
  have h := mul_lt_mul_of_pos_right hpq hw
  linarith

/-- Witness for C5 at the flowchart constants: patience weight three, the
impatient persona strictly faster than the patient one. -/
theorem c5_thinking_time_monotone_witness :
    computeThinkingTime cfgW personaLow 1
        = cfgW.baseDelay + personaLow.patience * cfgW.patienceWeight + 1 ∧
      computeThinkingTime cfgW personaLow 1
        < computeThinkingTime cfgW personaHigh 1 :=
  c5_thinking_time_monotone cfgW personaLow personaHigh 1
    (by norm_num [cfgW]) (by norm_num [personaLow, personaHigh])

/-- Reading back an edge just written for the same unordered pair. -/
lemma getEdge_setEdge_same (L : Ledger) (a b : String) (e : RelationshipEdge) :
    getEdge (setEdge L a b e) a b = e := by
  simp [getEdge, setEdge]

/-- C6 counterexample: the phrase tables of the repository diagrams are not
the sets the claim states.  An utterance saying brilliant (a diagram
agreement phrase, not a claimed marker) does increment the alliance counter,
while containing no claimed agreement marker; an utterance saying wrong (a
diagram disagreement phrase) does increment the conflict counter while
containing no claimed disagreement marker. -/
theorem c6_counterexample :
    detectAgreement "That is brilliant, Sarah" = true ∧
    specDetectAgreement "That is brilliant, Sarah" = false ∧
    (updateEdgeForText "That is brilliant, Sarah" freshEdge).allianceCount = 1 ∧
    detectDisagreement "You are wrong about that" = true ∧
    specDetectDisagreement "You are wrong about that" = false ∧
    (updateEdgeForText "You are wrong about that" freshEdge).conflictCount = 1 := by
  decide

/-- C6 amended: with the phrase tables of the repository diagrams (agreement:
building on, exactly, brilliant; disagreement: disagree, wrong, stop), an
utterance referencing another persona by name updates the speaker-to-referenced
edge by the text rules: an agreement hit increments allianceCount and raises
respect by one clamped, a disagreement hit increments conflictCount and lowers
respect by one clamped. -/
theorem c6_marker_ledger_updates (u : Utterance) (sp other : Persona)
    (L : Ledger) (e : RelationshipEdge)
    (hsp : u.speakerId = sp.id) (hne : other.id ≠ sp.id)
    (href : containsSub u.text other.displayName = true)
    (hni : u.interruptedSpeakerId = none) :
    agreementPhrases = ["building on", "exactly", "brilliant"] ∧
    disagreementPhrases = ["disagree", "wrong", "stop"] ∧
    getEdge (applyUtterance [sp, other] u L) sp.id other.id
      = updateEdgeForText u.text (getEdge L sp.id other.id) ∧
    (detectAgreement u.text = true →
      (updateEdgeForText u.text e).allianceCount = e.allianceCount + 1) ∧
    (detectAgreement u.text = true → detectDisagreement u.text = false →
      (updateEdgeForText u.text e).respect = clampRespect (e.respect + 1)) ∧
    (detectDisagreement u.text = true →
      (updateEdgeForText u.text e).conflictCount = e.conflictCount + 1) ∧
    (detectDisagreement u.text = true → detectAgreement u.text = false →
      (updateEdgeForText u.text e).respect = clampRespect (e.respect - 1)) := by
  refine ⟨rfl, rfl, ?_, ?_, ?_, ?_, ?_⟩
  · have hspf : (sp.id != sp.id) = false := by simp
    have hot : (other.id != sp.id) = true := by simp [hne]
    simp [applyUtterance, hni, List.filter, hspf, hot, href, hsp,
      getEdge_setEdge_same]
  · intro ha
    rcases hd : detectDisagreement u.text <;>
      simp [updateEdgeForText, ha, hd, applyAgreement, applyDisagreement]
  · intro ha hd
    simp [updateEdgeForText, ha, hd, applyAgreement]
  · intro hd
    rcases ha : detectAgreement u.text <;>
      simp [updateEdgeForText, ha, hd, applyAgreement, applyDisagreement]
  · intro hd ha
    simp [updateEdgeForText, ha, hd, applyDisagreement]

/-- Witness for C6 at a concrete utterance: the impatient persona builds on
the patient one by name; the edge update and the agreement counters evaluate
as the amended claim states. -/
theorem c6_marker_ledger_updates_witness :
    getEdge (applyUtterance [personaLow, personaHigh] uW emptyLedger)
        personaLow.id personaHigh.id
      = updateEdgeForText uW.text (getEdge emptyLedger personaLow.id personaHigh.id) ∧
    (updateEdgeForText uW.text freshEdge).allianceCount
      = freshEdge.allianceCount + 1 ∧
    (updateEdgeForText uW.text freshEdge).respect
      = clampRespect (freshEdge.respect + 1) := by
  have h := c6_marker_ledger_updates uW personaLow personaHigh emptyLedger
    freshEdge rfl (by decide) (by decide) rfl
  exact ⟨h.2.2.1, h.2.2.2.1 (by decide), h.2.2.2.2.1 (by decide) (by decide)⟩

/-- C10 counterexample: the LiveFeed lookups are not total over every
unknown agent id.  The id constructor is outside the six known ids yet its
index expression hits the inherited Object constructor, so the or-fallback
never fires: the rendered name is Object and the role undefined.  The id
toString gets an inherited function instead of the default colour class.
The id proto (double-underscored) yields the Object prototype, whose name
property is undefined, so the avatar initial raises a TypeError and the
message fails to render. -/
theorem c10_counterexample :
    "constructor" ∉ knownAgentIds ∧
    getAgentInfo "constructor"
      = AgentInfoResult.inheritedMember "constructor" ∧
    jsNameProp (getAgentInfo "constructor") = some "Object" ∧
    jsRoleProp (getAgentInfo "constructor") = none ∧
    "toString" ∉ knownAgentIds ∧
    getAgentColor "toString" = ColorResult.inheritedMember "toString" ∧
    "__proto__" ∉ knownAgentIds ∧
    renderFeedMessage ⟨"__proto__", "hello", 0, 0, false⟩ = none := by
  decide

/-- C10 amended: the LiveFeed fallback fires exactly for ids outside both
the six known ids and the property names inherited from the Object
prototype: for every such id getAgentInfo returns the Unknown/Agent info,
getAgentColor returns the default grey class, and the message renders with
that fallback header. -/
theorem c10_unknown_agent_fallback (agentId : String)
    (h : agentId ∉ knownAgentIds) (hp : agentId ∉ objectPrototypeProps) :
    getAgentInfo agentId = AgentInfoResult.info unknownAgentInfo ∧
    getAgentColor agentId = ColorResult.color defaultAgentColor ∧
    ∀ e : AgentResponseEvent, e.agent = agentId →
      renderFeedMessage e
        = some ⟨unknownAgentInfo.name, some unknownAgentInfo.role,
            ColorResult.color defaultAgentColor, e.message⟩ := by
  simp [knownAgentIds] at h
  push_neg at h
  obtain ⟨h1, h2, h3, h4, h5, h6⟩ := h
  have b1 : (agentId == "sarah") = false := beq_eq_false_iff_ne.mpr h1
  have b2 : (agentId == "marcus") = false := beq_eq_false_iff_ne.mpr h2
  have b3 : (agentId == "elena") = false := beq_eq_false_iff_ne.mpr h3
  have b4 : (agentId == "david") = false := beq_eq_false_iff_ne.mpr h4
  have b5 : (agentId == "priya") = false := beq_eq_false_iff_ne.mpr h5
  have b6 : (agentId == "alex") = false := beq_eq_false_iff_ne.mpr h6
  have hinfo : getAgentInfo agentId = AgentInfoResult.info unknownAgentInfo := by
    simp [getAgentInfo, agentDirectory, List.lookup, b1, b2, b3, b4, b5, b6, hp]
  have hcolor : getAgentColor agentId = ColorResult.color defaultAgentColor := by
    simp [getAgentColor, agentColors, List.lookup, b1, b2, b3, b4, b5, b6, hp]
  refine ⟨hinfo, hcolor, ?_⟩
  intro e he
  simp [renderFeedMessage, he, hinfo, hcolor, jsNameProp, jsRoleProp]

/-- Witness for C10 at the unknown id bob, which is neither a known id nor
an inherited prototype name: the fallback info, the default colour, and the
rendered message. -/
theorem c10_unknown_agent_fallback_witness :
    getAgentInfo "bob" = AgentInfoResult.info unknownAgentInfo ∧
    getAgentColor "bob" = ColorResult.color defaultAgentColor ∧
    renderFeedMessage ⟨"bob", "hello", 0, 0, false⟩
      = some ⟨unknownAgentInfo.name, some unknownAgentInfo.role,
          ColorResult.color defaultAgentColor, "hello"⟩ := by
  have h := c10_unknown_agent_fallback "bob" (by decide) (by decide)
  exact ⟨h.1, h.2.1, h.2.2 ⟨"bob", "hello", 0, 0, false⟩ rfl⟩

/-- Advancing a non-terminal phase goes to its strict successor, changes the
phase, resets the heard set, and raises the phase index by one. -/
lemma advancePhase_of_ne (s : ConversationSession)
    (h : s.currentPhase ≠ Phase.synthesis) :
    nextPhase s.currentPhase = some (advancePhase s).currentPhase ∧
    (advancePhase s).currentPhase ≠ s.currentPhase ∧
    (advancePhase s).spokenThisPhase = [] ∧
    s.currentPhase.idx + 1 = (advancePhase s).currentPhase.idx := by
  rcases hp : s.currentPhase <;>
    simp [advancePhase, nextPhase, hp, Phase.idx] at h ⊢

/-- The advance condition as a proposition. -/
lemma shouldAdvance_iff (cfg : OrchestratorConfig) (personaIds : List String)
    (s : ConversationSession) :
    shouldAdvance cfg personaIds s = true ↔
      ((∀ p ∈ personaIds, p ∈ s.spokenThisPhase) ∨
        cfg.maxUtterances s.currentPhase ≤ s.utterancesThisPhase) := by
  simp [shouldAdvance, List.all_eq_true]

/-- The phase index never decreases across the after-utterance check. -/
lemma maybeAdvance_idx_le (cfg : OrchestratorConfig) (personaIds : List String)
    (s : ConversationSession) :
    s.currentPhase.idx ≤ (maybeAdvance cfg personaIds s).currentPhase.idx := by
  unfold maybeAdvance
  split_ifs with h
  · have hc := advancePhase_of_ne s h.1
    omega
  · exact le_refl _

/-- The after-utterance check never touches the transcript. -/
lemma maybeAdvance_transcript (cfg : OrchestratorConfig)
    (personaIds : List String) (s : ConversationSession) :
    (maybeAdvance cfg personaIds s).transcript = s.transcript := by
  unfold maybeAdvance
  split_ifs with h
  · unfold advancePhase
    rcases hn : nextPhase s.currentPhase <;> simp [hn]
  · rfl

/-- One pipeline turn appends exactly one utterance, whatever the generator
did. -/
lemma pipelineTurn_transcript_len (cfg : OrchestratorConfig)
    (personas : List Persona) (inp : TurnInput) (s : ConversationSession) :
    (pipelineTurn cfg personas inp s).1.transcript.length
      = s.transcript.length + 1 := by
  simp [pipelineTurn, maybeAdvance_transcript]

/-- One pipeline turn never lowers the phase index. -/
lemma pipelineTurn_idx_le (cfg : OrchestratorConfig) (personas : List Persona)
    (inp : TurnInput) (s : ConversationSession) :
    s.currentPhase.idx ≤ (pipelineTurn cfg personas inp s).1.currentPhase.idx := by
  simp only [pipelineTurn]
  have h := maybeAdvance_idx_le cfg (personas.map Persona.id)
    { s with
      transcript := s.transcript ++
        [{ sequenceNumber := s.transcript.length
           speakerId := inp.speaker.id
           text := (generateWithRetry inp.gen).text
           phase := s.currentPhase
           timestampOffsetMs := computeThinkingTime cfg inp.speaker inp.jitter
           interruptedSpeakerId := inp.interruptedId
           degraded := (generateWithRetry inp.gen).degraded }]
      spokenThisPhase := inp.speaker.id :: s.spokenThisPhase
      utterancesThisPhase := s.utterancesThisPhase + 1
      relationships := applyUtterance personas
        { sequenceNumber := s.transcript.length
          speakerId := inp.speaker.id
          text := (generateWithRetry inp.gen).text
          phase := s.currentPhase
          timestampOffsetMs := computeThinkingTime cfg inp.speaker inp.jitter
          interruptedSpeakerId := inp.interruptedId
          degraded := (generateWithRetry inp.gen).degraded }
        s.relationships }
  exact h

/-- C1 counterexample: in the conversation flowchart of SystemDiagram.jsx the
Synthesis phase node feeds back into the dynamic response loop, whose first
step schedules thinking time for the next turn — so turns are still scheduled
after the session enters the Synthesis phase. -/
theorem c1_counterexample :
    (ConvNode.phaseSynthesis, ConvNode.dynamicLoop) ∈ convEdges ∧
    (ConvNode.dynamicLoop, ConvNode.thinkTime) ∈ convEdges := by
  decide

/-- C1 amended: sessions start in Discovery; the phase machine only ever
moves to the strict successor phase (Discovery, Analysis, Recommendation,
Synthesis in order); Synthesis is the last phase with no successor; and no
sequence of pipeline turns ever lowers the phase index — though utterance
turns are still scheduled within the Synthesis phase before the terminal
briefing generation. -/
theorem c1_phases_strictly_forward :
    (∀ sid topic, (initSession sid topic).currentPhase = Phase.discovery) ∧
    nextPhase Phase.synthesis = none ∧
    (∀ (cfg : OrchestratorConfig) (personaIds : List String)
        (s : ConversationSession),
      ((maybeAdvance cfg personaIds s).currentPhase ≠ s.currentPhase →
        nextPhase s.currentPhase
          = some (maybeAdvance cfg personaIds s).currentPhase) ∧
      s.currentPhase.idx ≤ (maybeAdvance cfg personaIds s).currentPhase.idx) ∧
    (∀ (cfg : OrchestratorConfig) (personas : List Persona)
        (inputs : List TurnInput) (s : ConversationSession),
      s.currentPhase.idx ≤ (runTurns cfg personas inputs s).1.currentPhase.idx) := by
  refine ⟨fun _ _ => rfl, rfl, ?_, ?_⟩
  · intro cfg personaIds s
    constructor
    · intro hne
      unfold maybeAdvance at hne ⊢
      split_ifs at hne ⊢ with h
      · exact (advancePhase_of_ne s h.1).1
      · exact absurd rfl hne
    · exact maybeAdvance_idx_le cfg personaIds s
  · intro cfg personas inputs
    induction inputs with
    | nil => intro s; simp [runTurns]
    | cons inp rest ih =>
      intro s
      have h1 := pipelineTurn_idx_le cfg personas inp s
      have h2 := ih (pipelineTurn cfg personas inp s).1
      simp only [runTurns]
      omega

/-- Witness for C1 at a concrete advancing session: the transition out of
Discovery goes to its strict successor and the phase index does not drop. -/
theorem c1_phases_strictly_forward_witness :
    nextPhase sessionW.currentPhase
      = some (maybeAdvance cfgW ["sarah", "marcus"] sessionW).currentPhase ∧
    sessionW.currentPhase.idx
      ≤ (maybeAdvance cfgW ["sarah", "marcus"] sessionW).currentPhase.idx := by
  have h := c1_phases_strictly_forward.2.2.1 cfgW ["sarah", "marcus"] sessionW
  exact ⟨h.1 (by decide), h.2⟩

/-- C2: out of a non-terminal phase, the phase machine advances exactly when
every listed persona has been heard this phase or the per-phase utterance cap
is reached; every transition resets the heard set; and a reached cap forces
the transition unconditionally. -/
theorem c2_phase_advance_condition (cfg : OrchestratorConfig)
    (personaIds : List String) (s : ConversationSession)
    (hterm : s.currentPhase ≠ Phase.synthesis) :
    ((maybeAdvance cfg personaIds s).currentPhase ≠ s.currentPhase ↔
      ((∀ p ∈ personaIds, p ∈ s.spokenThisPhase) ∨
        cfg.maxUtterances s.currentPhase ≤ s.utterancesThisPhase)) ∧
    ((maybeAdvance cfg personaIds s).currentPhase ≠ s.currentPhase →
      (maybeAdvance cfg personaIds s).spokenThisPhase = []) ∧
    (cfg.maxUtterances s.currentPhase ≤ s.utterancesThisPhase →
      (maybeAdvance cfg personaIds s).currentPhase ≠ s.currentPhase) := by
  cases hb : shouldAdvance cfg personaIds s with
  | false =>
    have hnot : ¬ ((∀ p ∈ personaIds, p ∈ s.spokenThisPhase) ∨
        cfg.maxUtterances s.currentPhase ≤ s.utterancesThisPhase) := by
      intro hr
      have := (shouldAdvance_iff cfg personaIds s).mpr hr
      rw [hb] at this
      exact Bool.false_ne_true this
    have hm : maybeAdvance cfg personaIds s = s := by
      unfold maybeAdvance
      rw [if_neg]
      intro hcond
      rw [hb] at hcond
      exact Bool.false_ne_true hcond.2
    rw [hm]
    exact ⟨by simp [hnot], fun hne => absurd rfl hne,
      fun hc => absurd (Or.inr hc) hnot⟩
  | true =>
    have hadv := advancePhase_of_ne s hterm
    have hm : maybeAdvance cfg personaIds s = advancePhase s := by
      unfold maybeAdvance
      rw [if_pos ⟨hterm, hb⟩]
    rw [hm]
    refine ⟨iff_of_true hadv.2.1 ((shouldAdvance_iff cfg personaIds s).mp hb),
      fun _ => hadv.2.2.1, fun _ => hadv.2.1⟩

/-- Witness for C2 at a session in Discovery in which both personas have
been heard: the phase advances and the heard set resets. -/
theorem c2_phase_advance_condition_witness :
    (maybeAdvance cfgW ["sarah", "marcus"] sessionW).currentPhase
      ≠ sessionW.currentPhase ∧
    (maybeAdvance cfgW ["sarah", "marcus"] sessionW).spokenThisPhase = [] := by
  have h := c2_phase_advance_condition cfgW ["sarah", "marcus"] sessionW
    (by decide)
  have hch := h.1.mpr (Or.inl (by decide))
  exact ⟨hch, h.2.1 hch⟩

/-- C7: the generation wrapper treats an empty string as a failure, retries
exactly once with the simplified context after a first failure, answers the
retry text undegraded when the retry succeeds, substitutes the
persona-neutral fallback line flagged degraded after a second failure, and a
pipeline turn always appends exactly one utterance — a generation failure
never terminates the session. -/
theorem c7_retry_then_fallback (gen : Bool → Option String)
    (cfg : OrchestratorConfig) (personas : List Persona) (inp : TurnInput)
    (s : ConversationSession) :
    genOutcome (some "") = none ∧
    (genOutcome (gen true) = none →
      (generateWithRetryTrace gen).2 = [true, false]) ∧
    (genOutcome (gen true) ≠ none → (generateWithRetryTrace gen).2 = [true]) ∧
    (∀ t, genOutcome (gen true) = none → genOutcome (gen false) = some t →
      generateWithRetry gen = ⟨t, false⟩) ∧
    (genOutcome (gen true) = none → genOutcome (gen false) = none →
      generateWithRetry gen = ⟨fallbackLine, true⟩) ∧
    (pipelineTurn cfg personas inp s).1.transcript.length
      = s.transcript.length + 1 := by
  refine ⟨rfl, ?_, ?_, ?_, ?_, pipelineTurn_transcript_len cfg personas inp s⟩
  · intro h1
    rcases h2 : genOutcome (gen false) <;>
      simp [generateWithRetryTrace, h1, h2]
  · intro h1
    rcases hx : genOutcome (gen true) with _ | t
    · exact absurd hx h1
    · simp [generateWithRetryTrace, hx]
  · intro t h1 h2
    simp [generateWithRetry, generateWithRetryTrace, h1, h2]
  · intro h1 h2
    simp [generateWithRetry, generateWithRetryTrace, h1, h2]

/-- Witness for C7 with the always-failing generator: both attempts made,
the fallback line substituted and flagged degraded, and the turn still
appends one utterance to a fresh session. -/
theorem c7_retry_then_fallback_witness :
    (generateWithRetryTrace (fun _ => none)).2 = [true, false] ∧
    generateWithRetry (fun _ => none) = ⟨fallbackLine, true⟩ ∧
    (pipelineTurn cfgW [personaLow] inpW (initSession "s1" "launch")).1.transcript.length
      = (initSession "s1" "launch").transcript.length + 1 := by
  have h := c7_retry_then_fallback (fun _ => none) cfgW [personaLow] inpW
    (initSession "s1" "launch")
  exact ⟨h.2.1 rfl, h.2.2.2.2.1 rfl rfl, h.2.2.2.2.2⟩

/-- C8: synthesis is a function of the transcript and the relationship
ledger alone: two sessions agreeing on both yield the same document, with
no randomness or external calls involved; idempotence on a fixed terminal
session is the special case of equal sessions. -/
theorem c8_synthesize_deterministic (personas : List Persona)
    (s1 s2 : ConversationSession) (ht : s1.transcript = s2.transcript)
    (_hr : s1.relationships = s2.relationships) :
    synthesize personas s1 = synthesize personas s2 := by
  simp [synthesize, ht]

/-- Witness for C8: a fresh session and a session differing in every
session-identity field but agreeing on transcript and ledger synthesize to
the same document. -/
theorem c8_synthesize_deterministic_witness :
    synthesize [personaLow] (initSession "a" "launch")
      = synthesize [personaLow] sessionW2 :=
  c8_synthesize_deterministic [personaLow] (initSession "a" "launch")
    sessionW2 rfl rfl

/-- C9 counterexample: the utterance-event payload named by the claim does
not match the payload the frontend actually reads: the claimed fields
sequenceNumber and speakerId are absent from the agent response payload, and
the actual field agent is absent from the claimed list. -/
theorem c9_counterexample :
    "sequenceNumber" ∈ specUtteranceEventFields ∧
    "sequenceNumber" ∉ agentResponseEventFields ∧
    "speakerId" ∈ specUtteranceEventFields ∧
    "speakerId" ∉ agentResponseEventFields ∧
    "agent" ∈ agentResponseEventFields ∧
    "agent" ∉ specUtteranceEventFields := by
  decide

/-- Event counts and transcript growth of the turn loop. -/
lemma runTurns_events (cfg : OrchestratorConfig) (personas : List Persona) :
    ∀ (inputs : List TurnInput) (s : ConversationSession),
      (runTurns cfg personas inputs s).2.countP SwarmEvent.isResponse
          = inputs.length ∧
        (runTurns cfg personas inputs s).2.countP SwarmEvent.isComplete = 0 ∧
        (runTurns cfg personas inputs s).1.transcript.length
          = s.transcript.length + inputs.length := by
  intro inputs
  induction inputs with
  | nil => intro s; simp [runTurns]
  | cons inp rest ih =>
    intro s
    have h := ih (pipelineTurn cfg personas inp s).1
    have hl := pipelineTurn_transcript_len cfg personas inp s
    simp only [runTurns, List.countP_cons, SwarmEvent.isResponse,
      SwarmEvent.isComplete, List.length_cons]
    refine ⟨?_, ?_, ?_⟩
    · rw [h.1]; simp
    · rw [h.2.1]; simp
    · rw [h.2.2, hl]; omega

/-- C9 amended: the per-utterance event payload has exactly the fields the
frontend reads (agent, message, timestamp, thinking_time, has_web_data); a
conversation run emits exactly one such event per appended utterance, and
exactly one terminal completion event, placed last and carrying the
synthesis document of the final session. -/
theorem c9_event_per_utterance (cfg : OrchestratorConfig)
    (personas : List Persona) (inputs : List TurnInput)
    (s0 : ConversationSession) :
    agentResponseEventFields
      = ["agent", "message", "timestamp", "thinking_time", "has_web_data"] ∧
    (∀ inp u, mkAgentResponseEvent inp u
      = ⟨u.speakerId, u.text, u.sequenceNumber, u.timestampOffsetMs,
         inp.hasWebData⟩) ∧
    (runConversation cfg personas inputs s0).2.countP SwarmEvent.isResponse
      = inputs.length ∧
    (runConversation cfg personas inputs s0).1.transcript.length
      = s0.transcript.length + inputs.length ∧
    (runConversation cfg personas inputs s0).2.countP SwarmEvent.isComplete
      = 1 ∧
    (runConversation cfg personas inputs s0).2.getLast?
      = some (SwarmEvent.complete
          (synthesize personas (runConversation cfg personas inputs s0).1)) := by
  have h := runTurns_events cfg personas inputs s0
  refine ⟨rfl, fun _ _ => rfl, ?_, ?_, ?_, ?_⟩
  · simp only [runConversation, List.countP_append]
    rw [h.1]
    simp [SwarmEvent.isResponse, List.countP_cons]
  · simpa only [runConversation] using h.2.2
  · simp only [runConversation, List.countP_append]
    rw [h.2.1]
    simp [SwarmEvent.isComplete, List.countP_cons]
  · simp [runConversation]

end Theorems

end MarketingSwarm
